import Mathlib

/-!
PCSSTests: the shadow-mapping demo of `src/PCSSTests/src/main.cpp`.

The program is one `main` with a frame loop, plus three helpers
(`LoadShadowMapRenderTexture`, `UnloadShadowMapRenderTexture`, `DrawScene`).
Everything it does is a call into raylib / rlgl, so the embedding is a
*trace* model: every function of the program is translated to the list of
library calls it makes (each call recorded with its arguments and, where the
library returns something, with the returned value), together with the value
the function itself returns.

What the library returns is not decided by the program; it is supplied by an
environment `Env`, over which all theorems quantify. `Env` also says how the
`TRACELOG` macro is defined where the program is compiled: main.cpp does not
define it, and what an invocation of it does depends on that definition alone.

Conventions
* `float` values are modelled by rationals (`Scalar`).  A float literal is
  modelled by its decimal value.  The program performs only two float
  operations of its own: `cam.fovy / 2.0f` (a division by two) and
  `dt * 1000.0f` (which only feeds the frame-time text).
* `unsigned int` handles are `Nat`, `int` values are `Int`.
* raymath helpers (`Vector3Zero`, `Vector3Normalize`, `Vector3Scale`,
  `MatrixMultiply`) and `ColorNormalize` are pure; they are taken from `Env`
  and are not recorded in the trace.
* The loop `while (!WindowShouldClose())` is run with fuel: `fuel` bounds the
  number of times the loop condition is evaluated, and the result says
  whether `main` returned.
-/

namespace PCSS

/-! ## Library data types (the fields the program touches) -/

abbrev Scalar := ℚ

structure Vector3 where
  x : Scalar
  y : Scalar
  z : Scalar
deriving DecidableEq

structure Vector4 where
  x : Scalar
  y : Scalar
  z : Scalar
  w : Scalar
deriving DecidableEq

/-- Sixteen floats, as in raylib. -/
structure Matrix where
  m0 : Scalar
  m4 : Scalar
  m8 : Scalar
  m12 : Scalar
  m1 : Scalar
  m5 : Scalar
  m9 : Scalar
  m13 : Scalar
  m2 : Scalar
  m6 : Scalar
  m10 : Scalar
  m14 : Scalar
  m3 : Scalar
  m7 : Scalar
  m11 : Scalar
  m15 : Scalar
deriving DecidableEq

structure Color where
  r : Nat
  g : Nat
  b : Nat
  a : Nat
deriving DecidableEq

/-- The raylib colour constant `WHITE`. -/
def WHITE : Color := ⟨255, 255, 255, 255⟩
/-- The raylib colour constant `RAYWHITE`. -/
def RAYWHITE : Color := ⟨245, 245, 245, 255⟩
/-- The raylib colour constant `BLUE`. -/
def BLUE : Color := ⟨0, 121, 241, 255⟩

inductive CameraProjection where
  | CAMERA_PERSPECTIVE
  | CAMERA_ORTHOGRAPHIC
deriving DecidableEq

inductive CameraMode where
  | CAMERA_CUSTOM
  | CAMERA_FREE
  | CAMERA_ORBITAL
  | CAMERA_FIRST_PERSON
  | CAMERA_THIRD_PERSON
deriving DecidableEq

structure Camera3D where
  position : Vector3
  target : Vector3
  up : Vector3
  fovy : Scalar
  projection : CameraProjection
deriving DecidableEq

/-- A texture: `Texture` / `Texture2D` of raylib. -/
structure Texture where
  id : Nat
  width : Int
  height : Int
  mipmaps : Int
  format : Int
deriving DecidableEq

/-- The value of `RenderTexture2D target = { 0 }`'s texture members. -/
def Texture.zero : Texture := ⟨0, 0, 0, 0, 0⟩

structure RenderTexture2D where
  id : Nat
  texture : Texture
  depth : Texture
deriving DecidableEq

/-- The value of `RenderTexture2D target = { 0 }`. -/
def RenderTexture2D.zero : RenderTexture2D := ⟨0, Texture.zero, Texture.zero⟩

/-- A shader: program id and the array of locations `locs` points to. -/
structure Shader where
  id : Nat
  locs : List Int
deriving DecidableEq

/-- Index `SHADER_LOC_VECTOR_VIEW` of raylib's `ShaderLocationIndex`. -/
def SHADER_LOC_VECTOR_VIEW : Nat := 11

structure Mesh where
  vertexCount : Int
  triangleCount : Int
  vaoId : Nat
deriving DecidableEq

structure Material where
  shader : Shader
deriving DecidableEq

structure Model where
  meshes : List Mesh
  materials : List Material
deriving DecidableEq

inductive ConfigFlags where
  | FLAG_MSAA_4X_HINT
deriving DecidableEq

inductive ShaderUniformDataType where
  | SHADER_UNIFORM_FLOAT
  | SHADER_UNIFORM_VEC3
  | SHADER_UNIFORM_VEC4
  | SHADER_UNIFORM_INT
deriving DecidableEq

inductive TraceLogLevel where
  | LOG_INFO
  | LOG_WARNING
deriving DecidableEq

inductive FramebufferAttachType where
  | RL_ATTACHMENT_COLOR_CHANNEL0
  | RL_ATTACHMENT_DEPTH
  | RL_ATTACHMENT_STENCIL
deriving DecidableEq

inductive FramebufferAttachTextureType where
  | RL_ATTACHMENT_TEXTURE2D
  | RL_ATTACHMENT_RENDERBUFFER
deriving DecidableEq

/-- What a `const void *value` uniform argument points to. -/
inductive UniformValue where
  | int (v : Int)
  | float (v : Scalar)
  | vec3 (v : Vector3)
  | vec4 (v : Vector4)
deriving DecidableEq

/-! ## Library calls -/

/-- One call into the library, with its arguments and (last, named `ret` or
`camAfter`) what the library gave back. `TraceLog` is raylib's logging
function; the program never calls it by name, only through `TRACELOG`. -/
inductive Call where
  | SetConfigFlags (flags : ConfigFlags)
  | InitWindow (width height : Int) (title : String)
  | SetTargetFPS (fps : Int)
  | LoadShader (vsFileName fsFileName : String) (ret : Shader)
  | GetShaderLocation (shader : Shader) (uniformName : String) (ret : Int)
  | SetShaderValue (shader : Shader) (locIndex : Int) (value : UniformValue)
      (uniformType : ShaderUniformDataType)
  | GenMeshCube (width height length : Scalar) (ret : Mesh)
  | LoadModelFromMesh (mesh : Mesh) (ret : Model)
  | rlLoadFramebuffer (ret : Nat)
  | rlEnableFramebuffer (id : Nat)
  | rlLoadTextureDepth (width height : Int) (useRenderBuffer : Bool) (ret : Nat)
  | rlFramebufferAttach (fboId texId : Nat) (attachType : FramebufferAttachType)
      (texType : FramebufferAttachTextureType) (mipLevel : Int)
  | rlFramebufferComplete (id : Nat) (ret : Bool)
  | TraceLog (logLevel : TraceLogLevel) (text : String) (args : List Nat)
  | rlDisableFramebuffer
  | HideCursor
  | WindowShouldClose (ret : Bool)
  | GetFrameTime (ret : Scalar)
  | UpdateCamera (camera : Camera3D) (mode : CameraMode) (camAfter : Camera3D)
  | SetMousePosition (x y : Int)
  | BeginDrawing
  | BeginTextureMode (target : RenderTexture2D)
  | ClearBackground (color : Color)
  | BeginMode3D (camera : Camera3D)
  | rlGetMatrixModelview (ret : Matrix)
  | rlGetMatrixProjection (ret : Matrix)
  | DrawModelEx (model : Model) (position rotationAxis : Vector3)
      (rotationAngle : Scalar) (scale : Vector3) (tint : Color)
  | EndMode3D
  | EndTextureMode
  | SetShaderValueMatrix (shader : Shader) (locIndex : Int) (mat : Matrix)
  | rlEnableShader (id : Nat)
  | rlActiveTextureSlot (slot : Int)
  | rlEnableTexture (id : Nat)
  | rlSetUniform (locIndex : Int) (value : UniformValue)
      (uniformType : ShaderUniformDataType) (count : Int)
  | TextFormat (text : String) (arg : Scalar) (ret : String)
  | DrawText (text : String) (posX posY fontSize : Int) (color : Color)
  | EndDrawing
  | UnloadShader (shader : Shader)
  | UnloadModel (model : Model)
  | rlUnloadFramebuffer (id : Nat)
  | CloseWindow
deriving DecidableEq

/-- How `TRACELOG(level, ...)` is defined where main.cpp is compiled.
main.cpp defines no `TRACELOG` and includes only raylib.h, raymath.h and
rlgl.h; the definition it gets from them is the fallback of rlgl.h,
`TRACELOG(level, ...) (void)0`: case `nothing`. Case `traceLogCall` is the
definition raylib uses for its own sources, `TraceLog(level, __VA_ARGS__)`,
which reaches main.cpp only if the build defines `TRACELOG` ahead of the
headers. -/
inductive TracelogExpansion where
  | nothing
  | traceLogCall
deriving DecidableEq

/-- The calls an invocation `TRACELOG(level, text, args...)` expands to. -/
def TRACELOG (how : TracelogExpansion) (level : TraceLogLevel) (text : String)
    (args : List Nat) : List Call :=
  match how with
  | TracelogExpansion.nothing => []
  | TracelogExpansion.traceLogCall => [Call.TraceLog level text args]

/-- What the library supplies: the definition of `TRACELOG`, and what its
functions return. Results of calls made once per frame are indexed by the
frame number. -/
structure Env where
  tracelogExpansion : TracelogExpansion
  Vector3Zero : Vector3
  Vector3Normalize : Vector3 → Vector3
  Vector3Scale : Vector3 → Scalar → Vector3
  MatrixMultiply : Matrix → Matrix → Matrix
  ColorNormalize : Color → Vector4
  LoadShader : String → String → Shader
  GetShaderLocation : Shader → String → Int
  GenMeshCube : Scalar → Scalar → Scalar → Mesh
  LoadModelFromMesh : Mesh → Model
  rlLoadFramebuffer : Nat
  rlLoadTextureDepth : Int → Int → Bool → Nat
  rlFramebufferComplete : Nat → Bool
  WindowShouldClose : Nat → Bool
  GetFrameTime : Nat → Scalar
  UpdateCamera : Nat → Camera3D → CameraMode → Camera3D
  rlGetMatrixModelview : Nat → Matrix
  rlGetMatrixProjection : Nat → Matrix
  TextFormat : String → Scalar → String

/-! ## The program -/

def screenWidth : Int := 800
def screenHeight : Int := 450
def shadowMapResolution : Int := 1024

/-- `LoadShadowMapRenderTexture` (main.cpp 134-165): the calls made and the
returned target. -/
def LoadShadowMapRenderTexture (env : Env) (width height : Int) :
    List Call × RenderTexture2D :=
  let target0 : RenderTexture2D := RenderTexture2D.zero
  let target1 : RenderTexture2D := { target0 with id := env.rlLoadFramebuffer }
  let target2 : RenderTexture2D :=
    { target1 with texture := { target1.texture with width := width, height := height } }
  if target2.id > 0 then
    let depthId := env.rlLoadTextureDepth width height false
    let target3 : RenderTexture2D :=
      { target2 with
        depth := { target2.depth with
          id := depthId, width := width, height := height, format := 19, mipmaps := 1 } }
    let complete := env.rlFramebufferComplete target3.id
    ([Call.rlLoadFramebuffer env.rlLoadFramebuffer,
      Call.rlEnableFramebuffer target3.id,
      Call.rlLoadTextureDepth width height false depthId,
      Call.rlFramebufferAttach target3.id target3.depth.id
        FramebufferAttachType.RL_ATTACHMENT_DEPTH
        FramebufferAttachTextureType.RL_ATTACHMENT_TEXTURE2D 0,
      Call.rlFramebufferComplete target3.id complete]
      ++ (if complete then
            TRACELOG env.tracelogExpansion TraceLogLevel.LOG_INFO
              "FBO: [ID %i] Framebuffer object created successfully" [target3.id]
          else [])
      ++ [Call.rlDisableFramebuffer],
     target3)
  else
    ([Call.rlLoadFramebuffer env.rlLoadFramebuffer]
      ++ TRACELOG env.tracelogExpansion TraceLogLevel.LOG_WARNING
          "FBO: Framebuffer object can not be created" [],
     target2)

/-- `UnloadShadowMapRenderTexture` (main.cpp 168-176). -/
def UnloadShadowMapRenderTexture (target : RenderTexture2D) : List Call :=
  if target.id > 0 then [Call.rlUnloadFramebuffer target.id] else []

/-- `DrawScene` (main.cpp 178-187). -/
def DrawScene (env : Env) (cube : Model) : List Call :=
  [Call.DrawModelEx cube env.Vector3Zero ⟨0, 1, 0⟩ 0 ⟨10, 1, 10⟩ BLUE,
   Call.DrawModelEx cube ⟨0, 1.5, 4.9⟩ ⟨0, 1, 0⟩ 0 ⟨10, 2, 0.2⟩ WHITE,
   Call.DrawModelEx cube ⟨3, 3.5, 4.9⟩ ⟨0, 1, 0⟩ 0 ⟨4, 2, 0.2⟩ WHITE,
   Call.DrawModelEx cube ⟨-3, 3.5, 4.9⟩ ⟨0, 1, 0⟩ 0 ⟨4, 2, 0.2⟩ WHITE,
   Call.DrawModelEx cube ⟨0, 5.5, 4.9⟩ ⟨0, 1, 0⟩ 0 ⟨10, 2, 0.2⟩ WHITE]

/-- The assignment `cube.materials[0].shader = shadowShader`. -/
def Model.setMaterial0Shader (m : Model) (s : Shader) : Model :=
  { m with
    materials :=
      match m.materials with
      | [] => []
      | mat :: rest => { mat with shader := s } :: rest }

/-- The local variables of `main` that are live in the frame loop and at
shutdown (`cam` is the camera as it enters the loop). -/
structure Locals where
  cam : Camera3D
  shadowShader : Shader
  lightVPLoc : Int
  shadowMapLoc : Int
  frustumWidthLoc : Int
  cube : Model
  shadowMap : RenderTexture2D
  lightCam : Camera3D

/-- The calls `main` makes to load the shadow map (main.cpp 47). -/
def shadowMapOf (env : Env) : List Call × RenderTexture2D :=
  LoadShadowMapRenderTexture env shadowMapResolution shadowMapResolution

/-- The part of `main` before the loop (main.cpp 16-57): the calls made and
the locals it leaves. -/
def startup (env : Env) : List Call × Locals :=
  let cam : Camera3D :=
    { position := ⟨9.5, 7.5, -6⟩
      target := env.Vector3Zero
      projection := CameraProjection.CAMERA_PERSPECTIVE
      up := ⟨0, 1, 0⟩
      fovy := 45 }
  let vs := "resources/shaders/shadowMap.vert"
  let fs := "resources/shaders/shadowMap.frag"
  let shader0 := env.LoadShader vs fs
  let viewPosLoc := env.GetShaderLocation shader0 "viewPos"
  let shadowShader : Shader :=
    { shader0 with locs := shader0.locs.set SHADER_LOC_VECTOR_VIEW viewPosLoc }
  let lightDir := env.Vector3Normalize ⟨0, -1, -1⟩
  let lightColor := WHITE
  let lightColorNormalized := env.ColorNormalize lightColor
  let lightDirLoc := env.GetShaderLocation shadowShader "lightDir"
  let lightColLoc := env.GetShaderLocation shadowShader "lightColor"
  let ambientLoc := env.GetShaderLocation shadowShader "ambient"
  let ambient : Vector4 := ⟨0.1, 0.1, 0.1, 1⟩
  let lightVPLoc := env.GetShaderLocation shadowShader "lightVP"
  let shadowMapLoc := env.GetShaderLocation shadowShader "shadowMap"
  let resolutionLoc := env.GetShaderLocation shadowShader "shadowMapResolution"
  let frustumWidthLoc := env.GetShaderLocation shadowShader "frustumWidth"
  let mesh := env.GenMeshCube 1 1 1
  let cube0 := env.LoadModelFromMesh mesh
  let cube := cube0.setMaterial0Shader shadowShader
  let sm := shadowMapOf env
  let lightCam : Camera3D :=
    { position := env.Vector3Scale lightDir (-8)
      target := env.Vector3Zero
      projection := CameraProjection.CAMERA_ORTHOGRAPHIC
      up := ⟨0, 1, 0⟩
      fovy := 20 }
  ([Call.SetConfigFlags ConfigFlags.FLAG_MSAA_4X_HINT,
    Call.InitWindow screenWidth screenHeight "Percentage-Closer Soft Shadows",
    Call.SetTargetFPS 60,
    Call.LoadShader vs fs shader0,
    Call.GetShaderLocation shader0 "viewPos" viewPosLoc,
    Call.GetShaderLocation shadowShader "lightDir" lightDirLoc,
    Call.GetShaderLocation shadowShader "lightColor" lightColLoc,
    Call.SetShaderValue shadowShader lightDirLoc (UniformValue.vec3 lightDir)
      ShaderUniformDataType.SHADER_UNIFORM_VEC3,
    Call.SetShaderValue shadowShader lightColLoc (UniformValue.vec4 lightColorNormalized)
      ShaderUniformDataType.SHADER_UNIFORM_VEC4,
    Call.GetShaderLocation shadowShader "ambient" ambientLoc,
    Call.SetShaderValue shadowShader ambientLoc (UniformValue.vec4 ambient)
      ShaderUniformDataType.SHADER_UNIFORM_VEC4,
    Call.GetShaderLocation shadowShader "lightVP" lightVPLoc,
    Call.GetShaderLocation shadowShader "shadowMap" shadowMapLoc,
    Call.GetShaderLocation shadowShader "shadowMapResolution" resolutionLoc,
    Call.SetShaderValue shadowShader resolutionLoc (UniformValue.int shadowMapResolution)
      ShaderUniformDataType.SHADER_UNIFORM_INT,
    Call.GetShaderLocation shadowShader "frustumWidth" frustumWidthLoc,
    Call.GenMeshCube 1 1 1 mesh,
    Call.LoadModelFromMesh mesh cube0]
    ++ sm.1
    ++ [Call.HideCursor],
   { cam := cam
     shadowShader := shadowShader
     lightVPLoc := lightVPLoc
     shadowMapLoc := shadowMapLoc
     frustumWidthLoc := frustumWidthLoc
     cube := cube
     shadowMap := sm.2
     lightCam := lightCam })

/-- The camera after `UpdateCamera(&cam, CAMERA_FREE)` in frame `k`. -/
def camAfterUpdate (env : Env) (k : Nat) (cam : Camera3D) : Camera3D :=
  env.UpdateCamera k cam CameraMode.CAMERA_FREE

/-- The body of the loop (main.cpp 66-117) in frame `k`, entered with camera
`cam`: the calls made, and the camera it leaves. -/
def frame (env : Env) (L : Locals) (k : Nat) (cam : Camera3D) : List Call × Camera3D :=
  let dt := env.GetFrameTime k
  let cameraPos := cam.position
  let cam1 := camAfterUpdate env k cam
  let lightView := env.rlGetMatrixModelview k
  let lightProj := env.rlGetMatrixProjection k
  let lightViewProj := env.MatrixMultiply lightView lightProj
  let slot : Int := 10
  let frustumRight : Scalar := cam1.fovy / 2
  let text := env.TextFormat "Frame time: %f ms" (dt * 1000)
  ([Call.GetFrameTime dt,
    Call.SetShaderValue L.shadowShader (L.shadowShader.locs.getD SHADER_LOC_VECTOR_VIEW 0)
      (UniformValue.vec3 cameraPos) ShaderUniformDataType.SHADER_UNIFORM_VEC3,
    Call.UpdateCamera cam CameraMode.CAMERA_FREE cam1,
    Call.SetMousePosition (screenWidth / 2) (screenHeight / 2),
    Call.BeginDrawing,
    Call.BeginTextureMode L.shadowMap,
    Call.ClearBackground WHITE,
    Call.BeginMode3D L.lightCam,
    Call.rlGetMatrixModelview lightView,
    Call.rlGetMatrixProjection lightProj]
    ++ DrawScene env L.cube
    ++ [Call.EndMode3D,
        Call.EndTextureMode,
        Call.ClearBackground RAYWHITE,
        Call.SetShaderValueMatrix L.shadowShader L.lightVPLoc lightViewProj,
        Call.rlEnableShader L.shadowShader.id,
        Call.rlActiveTextureSlot 10,
        Call.rlEnableTexture L.shadowMap.depth.id,
        Call.rlSetUniform L.shadowMapLoc (UniformValue.int slot)
          ShaderUniformDataType.SHADER_UNIFORM_INT 1,
        Call.rlSetUniform L.frustumWidthLoc (UniformValue.float frustumRight)
          ShaderUniformDataType.SHADER_UNIFORM_FLOAT 1,
        Call.BeginMode3D cam1]
    ++ DrawScene env L.cube
    ++ [Call.EndMode3D,
        Call.TextFormat "Frame time: %f ms" (dt * 1000) text,
        Call.DrawText text 20 20 20 BLUE,
        Call.EndDrawing],
   cam1)

/-- The loop `while (!WindowShouldClose()) ...` (main.cpp 62-119), started at
frame `k` with camera `cam`. `fuel` bounds the number of evaluations of the
loop condition; the Boolean says whether the loop was left. -/
def mainLoop (env : Env) (L : Locals) : Nat → Nat → Camera3D → List Call × Bool
  | 0, _, _ => ([], false)
  | fuel + 1, k, cam =>
    if env.WindowShouldClose k then ([Call.WindowShouldClose true], true)
    else
      let f := frame env L k cam
      let rest := mainLoop env L fuel (k + 1) f.2
      (Call.WindowShouldClose false :: (f.1 ++ rest.1), rest.2)

/-- The part of `main` after the loop (main.cpp 124-128). -/
def shutdown (L : Locals) : List Call :=
  [Call.UnloadShader L.shadowShader, Call.UnloadModel L.cube]
    ++ UnloadShadowMapRenderTexture L.shadowMap
    ++ [Call.CloseWindow]

/-- The program `main` (main.cpp 14-132): the trace of library calls, and the
value `main` returns (`none` when the loop is still running after `fuel`
evaluations of its condition). -/
def main (env : Env) (fuel : Nat) : List Call × Option Int :=
  let s := startup env
  let l := mainLoop env s.2 fuel 0 s.2.cam
  if l.2 then (s.1 ++ l.1 ++ shutdown s.2, some 0) else (s.1 ++ l.1, none)

/-! ## Vocabulary for stating properties of traces -/

/-- The name of the library function (or macro) a call invokes. -/
def Call.name : Call → String
  | .SetConfigFlags .. => "SetConfigFlags"
  | .InitWindow .. => "InitWindow"
  | .SetTargetFPS .. => "SetTargetFPS"
  | .LoadShader .. => "LoadShader"
  | .GetShaderLocation .. => "GetShaderLocation"
  | .SetShaderValue .. => "SetShaderValue"
  | .GenMeshCube .. => "GenMeshCube"
  | .LoadModelFromMesh .. => "LoadModelFromMesh"
  | .rlLoadFramebuffer .. => "rlLoadFramebuffer"
  | .rlEnableFramebuffer .. => "rlEnableFramebuffer"
  | .rlLoadTextureDepth .. => "rlLoadTextureDepth"
  | .rlFramebufferAttach .. => "rlFramebufferAttach"
  | .rlFramebufferComplete .. => "rlFramebufferComplete"
  | .TraceLog .. => "TraceLog"
  | .rlDisableFramebuffer => "rlDisableFramebuffer"
  | .HideCursor => "HideCursor"
  | .WindowShouldClose .. => "WindowShouldClose"
  | .GetFrameTime .. => "GetFrameTime"
  | .UpdateCamera .. => "UpdateCamera"
  | .SetMousePosition .. => "SetMousePosition"
  | .BeginDrawing => "BeginDrawing"
  | .BeginTextureMode .. => "BeginTextureMode"
  | .ClearBackground .. => "ClearBackground"
  | .BeginMode3D .. => "BeginMode3D"
  | .rlGetMatrixModelview .. => "rlGetMatrixModelview"
  | .rlGetMatrixProjection .. => "rlGetMatrixProjection"
  | .DrawModelEx .. => "DrawModelEx"
  | .EndMode3D => "EndMode3D"
  | .EndTextureMode => "EndTextureMode"
  | .SetShaderValueMatrix .. => "SetShaderValueMatrix"
  | .rlEnableShader .. => "rlEnableShader"
  | .rlActiveTextureSlot .. => "rlActiveTextureSlot"
  | .rlEnableTexture .. => "rlEnableTexture"
  | .rlSetUniform .. => "rlSetUniform"
  | .TextFormat .. => "TextFormat"
  | .DrawText .. => "DrawText"
  | .EndDrawing => "EndDrawing"
  | .UnloadShader .. => "UnloadShader"
  | .UnloadModel .. => "UnloadModel"
  | .rlUnloadFramebuffer .. => "rlUnloadFramebuffer"
  | .CloseWindow => "CloseWindow"

/-- How often the function called `fn` is called in a trace. -/
def callCount (fn : String) (tr : List Call) : Nat :=
  (tr.map Call.name).count fn

/-- The calls that release a resource. -/
def releaseNames : List String :=
  ["UnloadShader", "UnloadModel", "rlUnloadFramebuffer", "CloseWindow"]

/-- The calls that create a resource. -/
def createNames : List String :=
  ["InitWindow", "LoadShader", "LoadModelFromMesh", "rlLoadFramebuffer", "rlLoadTextureDepth"]

/-- Whether a call creates or releases a resource. -/
def isResourceCall (c : Call) : Bool :=
  decide (c.name ∈ createNames ++ releaseNames)

/-- Whether a call is an evaluation of the loop condition. -/
def isLoopTest : Call → Bool
  | .WindowShouldClose _ => true
  | _ => false

/-- The frames of a trace: for every `WindowShouldClose` that returned false,
the calls that follow it up to the next `WindowShouldClose`. -/
def framesOf : List Call → List (List Call)
  | [] => []
  | c :: rest =>
    if c = Call.WindowShouldClose false then
      rest.takeWhile (fun d => !isLoopTest d) :: framesOf rest
    else framesOf rest

/-- The number of loop iterations `mainLoop` runs when started at frame `k`
with `fuel`: the number of leading `false` answers of `WindowShouldClose`. -/
def loopIterations (env : Env) : Nat → Nat → Nat
  | 0, _ => 0
  | fuel + 1, k => if env.WindowShouldClose k then 0 else loopIterations env fuel (k + 1) + 1

/-- The camera with which frame `k` is entered: `UpdateCamera` applied in
each earlier frame. -/
def camAt (env : Env) (cam0 : Camera3D) : Nat → Camera3D
  | 0 => cam0
  | k + 1 => camAfterUpdate env k (camAt env cam0 k)

/-- An open `Begin*` block. -/
inductive Block where
  | drawing
  | textureMode (target : RenderTexture2D)
  | mode3D (camera : Camera3D)
deriving DecidableEq

/-- The effect of one call on the stack of open blocks (innermost first);
`none` when an `End*` call does not close the innermost open block. -/
def stepBlocks (st : List Block) (c : Call) : Option (List Block) :=
  match c with
  | .BeginDrawing => some (Block.drawing :: st)
  | .BeginTextureMode t => some (Block.textureMode t :: st)
  | .BeginMode3D cam => some (Block.mode3D cam :: st)
  | .EndDrawing =>
    match st with
    | Block.drawing :: r => some r
    | _ => none
  | .EndTextureMode =>
    match st with
    | Block.textureMode _ :: r => some r
    | _ => none
  | .EndMode3D =>
    match st with
    | Block.mode3D _ :: r => some r
    | _ => none
  | _ => some st

/-- The stack of open blocks after a trace that starts with the stack `st`. -/
def blocksFrom : List Block → List Call → Option (List Block)
  | st, [] => some st
  | st, c :: cs =>
    match stepBlocks st c with
    | some st1 => blocksFrom st1 cs
    | none => none

/-- The stack of open blocks after a trace that starts with no block open. -/
def openBlocks (tr : List Call) : Option (List Block) :=
  blocksFrom [] tr

/-- Whether a call draws a model. -/
def isDraw : Call → Bool
  | .DrawModelEx .. => true
  | _ => false

/-- A frame that renders the scene exactly twice: `f` consists of `pre`, a
`DrawScene`, `mid`, a second `DrawScene` and `post`, with no draw call in
`pre`, `mid` or `post`; the first `DrawScene` runs with exactly
`BeginDrawing`, `BeginTextureMode(shadowMap)`, `BeginMode3D(lightCam)` open
(in this order, outermost first); `mid` has `EndTextureMode` and later
`rlEnableTexture(shadowMap.depth.id)`; the second `DrawScene` runs with exactly
`BeginDrawing`, `BeginMode3D(cam)` open; and at the end of the frame every
block is closed, each by its matching `End*` call. -/
def TwoPassFrame (env : Env) (shadowMap : RenderTexture2D) (lightCam cam : Camera3D)
    (cube : Model) (f : List Call) : Prop :=
  ∃ pre mid post : List Call,
    f = pre ++ DrawScene env cube ++ mid ++ DrawScene env cube ++ post ∧
    (∀ c ∈ pre ++ mid ++ post, isDraw c = false) ∧
    openBlocks pre =
      some [Block.mode3D lightCam, Block.textureMode shadowMap, Block.drawing] ∧
    (∃ m1 m2 m3 : List Call,
      mid = m1 ++ Call.EndTextureMode :: m2 ++ Call.rlEnableTexture shadowMap.depth.id :: m3) ∧
    openBlocks (pre ++ DrawScene env cube ++ mid) =
      some [Block.mode3D cam, Block.drawing] ∧
    openBlocks f = some []

/-- A frame that sends the light's view-projection matrix: `f` reads
`lightView` and `lightProj` with `rlGetMatrixModelview` and
`rlGetMatrixProjection` while exactly `BeginDrawing`,
`BeginTextureMode(shadowMap)`, `BeginMode3D(lightCam)` are open, ends the light
pass (`EndMode3D`, `EndTextureMode`), then calls
`SetShaderValueMatrix(shader, loc, MatrixMultiply(lightView, lightProj))`,
and only later opens `BeginMode3D(cam)` and draws the scene; these are the only
calls of the three functions in the frame. -/
def LightVPFrame (env : Env) (shader : Shader) (loc : Int) (shadowMap : RenderTexture2D)
    (lightCam cam : Camera3D) (cube : Model) (f : List Call) : Prop :=
  ∃ (lightView lightProj : Matrix) (pre a b post : List Call),
    f = pre ++ [Call.rlGetMatrixModelview lightView, Call.rlGetMatrixProjection lightProj]
          ++ DrawScene env cube ++ [Call.EndMode3D, Call.EndTextureMode] ++ a
          ++ Call.SetShaderValueMatrix shader loc (env.MatrixMultiply lightView lightProj)
          :: b ++ Call.BeginMode3D cam :: DrawScene env cube ++ post ∧
    openBlocks pre =
      some [Block.mode3D lightCam, Block.textureMode shadowMap, Block.drawing] ∧
    openBlocks (pre ++ [Call.rlGetMatrixModelview lightView,
        Call.rlGetMatrixProjection lightProj] ++ DrawScene env cube
        ++ [Call.EndMode3D, Call.EndTextureMode] ++ a) = some [Block.drawing] ∧
    (∀ c ∈ pre ++ a ++ b ++ post, isDraw c = false) ∧
    callCount "rlGetMatrixModelview" f = 1 ∧
    callCount "rlGetMatrixProjection" f = 1 ∧
    callCount "SetShaderValueMatrix" f = 1

/-- The values sent with `rlSetUniform` to location `loc` in a trace. -/
def uniformsSent (loc : Int) : List Call → List UniformValue
  | [] => []
  | c :: rest =>
    match c with
    | .rlSetUniform l v _ _ => if l = loc then v :: uniformsSent loc rest else uniformsSent loc rest
    | _ => uniformsSent loc rest

/-! ## A concrete environment -/

/-- The product of two matrices, as raymath's `MatrixMultiply` computes it. -/
def matMul (l r : Matrix) : Matrix :=
  { m0 := l.m0 * r.m0 + l.m1 * r.m4 + l.m2 * r.m8 + l.m3 * r.m12
    m1 := l.m0 * r.m1 + l.m1 * r.m5 + l.m2 * r.m9 + l.m3 * r.m13
    m2 := l.m0 * r.m2 + l.m1 * r.m6 + l.m2 * r.m10 + l.m3 * r.m14
    m3 := l.m0 * r.m3 + l.m1 * r.m7 + l.m2 * r.m11 + l.m3 * r.m15
    m4 := l.m4 * r.m0 + l.m5 * r.m4 + l.m6 * r.m8 + l.m7 * r.m12
    m5 := l.m4 * r.m1 + l.m5 * r.m5 + l.m6 * r.m9 + l.m7 * r.m13
    m6 := l.m4 * r.m2 + l.m5 * r.m6 + l.m6 * r.m10 + l.m7 * r.m14
    m7 := l.m4 * r.m3 + l.m5 * r.m7 + l.m6 * r.m11 + l.m7 * r.m15
    m8 := l.m8 * r.m0 + l.m9 * r.m4 + l.m10 * r.m8 + l.m11 * r.m12
    m9 := l.m8 * r.m1 + l.m9 * r.m5 + l.m10 * r.m9 + l.m11 * r.m13
    m10 := l.m8 * r.m2 + l.m9 * r.m6 + l.m10 * r.m10 + l.m11 * r.m14
    m11 := l.m8 * r.m3 + l.m9 * r.m7 + l.m10 * r.m11 + l.m11 * r.m15
    m12 := l.m12 * r.m0 + l.m13 * r.m4 + l.m14 * r.m8 + l.m15 * r.m12
    m13 := l.m12 * r.m1 + l.m13 * r.m5 + l.m14 * r.m9 + l.m15 * r.m13
    m14 := l.m12 * r.m2 + l.m13 * r.m6 + l.m14 * r.m10 + l.m15 * r.m14
    m15 := l.m12 * r.m3 + l.m13 * r.m7 + l.m14 * r.m11 + l.m15 * r.m15 }

/-- The identity matrix. -/
def matId : Matrix :=
  { m0 := 1, m4 := 0, m8 := 0, m12 := 0
    m1 := 0, m5 := 1, m9 := 0, m13 := 0
    m2 := 0, m6 := 0, m10 := 1, m14 := 0
    m3 := 0, m7 := 0, m11 := 0, m15 := 1 }

/-- Uniform locations of a shader that has all the uniforms the program asks
for. -/
def demoLocation (uniformName : String) : Int :=
  if uniformName = "viewPos" then 0
  else if uniformName = "lightDir" then 1
  else if uniformName = "lightColor" then 2
  else if uniformName = "ambient" then 3
  else if uniformName = "lightVP" then 4
  else if uniformName = "shadowMap" then 5
  else if uniformName = "shadowMapResolution" then 6
  else if uniformName = "frustumWidth" then 7
  else -1

/-- A run in which `TRACELOG` is what rlgl.h defines, every resource loads,
the window is closed after `frames` frames, and the user does not move the
camera. -/
def demoEnv (frames : Nat) : Env :=
  { tracelogExpansion := TracelogExpansion.nothing
    Vector3Zero := ⟨0, 0, 0⟩
    Vector3Normalize := fun _ => ⟨0, -0.70710677, -0.70710677⟩
    Vector3Scale := fun v s => ⟨v.x * s, v.y * s, v.z * s⟩
    MatrixMultiply := matMul
    ColorNormalize := fun c => ⟨c.r / 255, c.g / 255, c.b / 255, c.a / 255⟩
    LoadShader := fun _ _ => ⟨3, List.replicate 32 (-1)⟩
    GetShaderLocation := fun _ uniformName => demoLocation uniformName
    GenMeshCube := fun _ _ _ => ⟨24, 12, 1⟩
    LoadModelFromMesh := fun mesh => ⟨[mesh], [⟨⟨1, List.replicate 32 (-1)⟩⟩]⟩
    rlLoadFramebuffer := 1
    rlLoadTextureDepth := fun _ _ _ => 2
    rlFramebufferComplete := fun _ => true
    WindowShouldClose := fun k => decide (frames ≤ k)
    GetFrameTime := fun _ => 0.016
    UpdateCamera := fun _ cam _ => cam
    rlGetMatrixModelview := fun _ => matId
    rlGetMatrixProjection := fun _ => matId
    TextFormat := fun text _ => text }

/-- The run of `demoEnv` in which the framebuffer cannot be created. -/
def noFramebufferEnv (frames : Nat) : Env :=
  { demoEnv frames with rlLoadFramebuffer := 0 }

/-- The run of `noFramebufferEnv` in a build that defines `TRACELOG` as a call
of `TraceLog`. -/
def loggingNoFramebufferEnv (frames : Nat) : Env :=
  { noFramebufferEnv frames with tracelogExpansion := TracelogExpansion.traceLogCall }

/-! ## Lemmas on the vocabulary -/

theorem framesOf_append_of_noTest (a b : List Call) (h : ∀ c ∈ a, isLoopTest c = false) :
    framesOf (a ++ b) = framesOf b := by
  induction a with
  | nil => rfl
  | cons c a ih =>
    have hc : isLoopTest c = false := h c (List.mem_cons_self _ _)
    have ha : ∀ d ∈ a, isLoopTest d = false := fun d hd => h d (List.mem_cons_of_mem _ hd)
    have hne : c ≠ Call.WindowShouldClose false := by
      intro he
      rw [he] at hc
      exact Bool.noConfusion hc
    simp only [List.cons_append, framesOf, if_neg hne]
    exact ih ha

/-! ## Loading the shadow map -/

theorem load_fail (env : Env) (width height : Int) (h : env.rlLoadFramebuffer = 0) :
    LoadShadowMapRenderTexture env width height =
      (Call.rlLoadFramebuffer 0 ::
        TRACELOG env.tracelogExpansion TraceLogLevel.LOG_WARNING
          "FBO: Framebuffer object can not be created" [],
       ⟨0, ⟨0, width, height, 0, 0⟩, Texture.zero⟩) := by
  simp [LoadShadowMapRenderTexture, RenderTexture2D.zero, Texture.zero, h]

theorem load_ok (env : Env) (width height : Int) (h : 0 < env.rlLoadFramebuffer) :
    LoadShadowMapRenderTexture env width height =
      ([Call.rlLoadFramebuffer env.rlLoadFramebuffer,
        Call.rlEnableFramebuffer env.rlLoadFramebuffer,
        Call.rlLoadTextureDepth width height false (env.rlLoadTextureDepth width height false),
        Call.rlFramebufferAttach env.rlLoadFramebuffer
          (env.rlLoadTextureDepth width height false)
          FramebufferAttachType.RL_ATTACHMENT_DEPTH
          FramebufferAttachTextureType.RL_ATTACHMENT_TEXTURE2D 0,
        Call.rlFramebufferComplete env.rlLoadFramebuffer
          (env.rlFramebufferComplete env.rlLoadFramebuffer)]
        ++ (if env.rlFramebufferComplete env.rlLoadFramebuffer then
              TRACELOG env.tracelogExpansion TraceLogLevel.LOG_INFO
                "FBO: [ID %i] Framebuffer object created successfully"
                [env.rlLoadFramebuffer]
            else [])
        ++ [Call.rlDisableFramebuffer],
       ⟨env.rlLoadFramebuffer, ⟨0, width, height, 0, 0⟩,
        ⟨env.rlLoadTextureDepth width height false, width, height, 1, 19⟩⟩) := by
  simp [LoadShadowMapRenderTexture, RenderTexture2D.zero, Texture.zero, h]

theorem TRACELOG_names (how : TracelogExpansion) (level : TraceLogLevel) (text : String)
    (args : List Nat) :
    (TRACELOG how level text args).map Call.name =
      if how = TracelogExpansion.traceLogCall then ["TraceLog"] else [] := by
  cases how <;> rfl

theorem noTest_of_all {l : List Call} (h : l.all (fun c => !isLoopTest c) = true) :
    ∀ c ∈ l, isLoopTest c = false := by
  intro c hc
  simpa using List.all_eq_true.mp h c hc

theorem frame_noTest (env : Env) (L : Locals) (k : Nat) (cam : Camera3D) :
    ∀ c ∈ (frame env L k cam).1, isLoopTest c = false :=
  noTest_of_all rfl

theorem shutdown_noTest (L : Locals) : ∀ c ∈ shutdown L, isLoopTest c = false := by
  apply noTest_of_all
  unfold shutdown UnloadShadowMapRenderTexture
  split <;> rfl

theorem load_noTest (env : Env) (width height : Int) :
    ∀ c ∈ (LoadShadowMapRenderTexture env width height).1, isLoopTest c = false := by
  apply noTest_of_all
  rcases Nat.eq_zero_or_pos env.rlLoadFramebuffer with h | h
  · rw [load_fail env width height h]
    cases env.tracelogExpansion <;> rfl
  · rw [load_ok env width height h]
    cases env.tracelogExpansion <;>
      cases env.rlFramebufferComplete env.rlLoadFramebuffer <;> rfl

theorem startup_noTest (env : Env) : ∀ c ∈ (startup env).1, isLoopTest c = false := by
  intro c hc
  simp only [startup, List.mem_append] at hc
  rcases hc with (hc | hc) | hc
  · refine noTest_of_all ?_ c hc
    rfl
  · exact load_noTest env _ _ c hc
  · refine noTest_of_all ?_ c hc
    rfl

theorem frame_cam (env : Env) (L : Locals) (k : Nat) (cam : Camera3D) :
    (frame env L k cam).2 = camAfterUpdate env k cam := rfl

theorem mainLoop_zero (env : Env) (L : Locals) (k : Nat) (cam : Camera3D) :
    mainLoop env L 0 k cam = ([], false) := rfl

theorem mainLoop_close (env : Env) (L : Locals) (n k : Nat) (cam : Camera3D)
    (hw : env.WindowShouldClose k = true) :
    mainLoop env L (n + 1) k cam = ([Call.WindowShouldClose true], true) := by
  rw [mainLoop, if_pos hw]

theorem mainLoop_step (env : Env) (L : Locals) (n k : Nat) (cam : Camera3D)
    (hw : env.WindowShouldClose k = false) :
    mainLoop env L (n + 1) k cam =
      (Call.WindowShouldClose false ::
          ((frame env L k cam).1 ++ (mainLoop env L n (k + 1) (camAfterUpdate env k cam)).1),
        (mainLoop env L n (k + 1) (camAfterUpdate env k cam)).2) := by
  rw [mainLoop, if_neg (by simp [hw])]
  simp only [frame_cam]

theorem framesOf_start (rest : List Call) :
    framesOf (Call.WindowShouldClose false :: rest) =
      rest.takeWhile (fun d => !isLoopTest d) :: framesOf rest := by
  rw [framesOf, if_pos rfl]

theorem framesOf_close (rest : List Call) :
    framesOf (Call.WindowShouldClose true :: rest) = framesOf rest := by
  rw [framesOf, if_neg (by simp)]

theorem takeWhile_test (b : Bool) (rest : List Call) :
    (Call.WindowShouldClose b :: rest).takeWhile (fun d => !isLoopTest d) = [] := by
  simp [List.takeWhile, isLoopTest]

theorem mainLoop_takeWhile (env : Env) (L : Locals) (tl : List Call) (fuel k : Nat)
    (cam : Camera3D) :
    ((mainLoop env L fuel k cam).1 ++ (if (mainLoop env L fuel k cam).2 then tl else [])).takeWhile
      (fun d => !isLoopTest d) = [] := by
  cases fuel with
  | zero => simp [mainLoop_zero]
  | succ n =>
    cases hw : env.WindowShouldClose k with
    | true =>
      rw [mainLoop_close env L n k cam hw]
      exact takeWhile_test _ _
    | false =>
      rw [mainLoop_step env L n k cam hw]
      exact takeWhile_test _ _

theorem framesOf_mainLoop (env : Env) (L : Locals) (tl : List Call)
    (htl : ∀ c ∈ tl, isLoopTest c = false) (cam0 : Camera3D) (fuel k : Nat) :
    framesOf ((mainLoop env L fuel k (camAt env cam0 k)).1 ++
        (if (mainLoop env L fuel k (camAt env cam0 k)).2 then tl else [])) =
      (List.range (loopIterations env fuel k)).map
        (fun i => (frame env L (k + i) (camAt env cam0 (k + i))).1) := by
  induction fuel generalizing k with
  | zero => simp [mainLoop_zero, loopIterations, framesOf]
  | succ n ih =>
    cases hw : env.WindowShouldClose k with
    | true =>
      rw [mainLoop_close env L n k _ hw]
      simp only [loopIterations, hw, if_true, List.range_zero, List.map_nil,
        List.cons_append, List.nil_append]
      rw [framesOf_close]
      have := framesOf_append_of_noTest tl [] htl
      simpa [framesOf] using this
    | false =>
      rw [mainLoop_step env L n k _ hw]
      have hc : camAfterUpdate env k (camAt env cam0 k) = camAt env cam0 (k + 1) := rfl
      simp only [loopIterations, hw, List.cons_append, Bool.false_eq_true, if_false,
        List.append_assoc, hc]
      rw [framesOf_start, List.takeWhile_append_of_pos
        (fun c hc => by simpa using frame_noTest env L k (camAt env cam0 k) c hc),
        mainLoop_takeWhile, framesOf_append_of_noTest _ _ (frame_noTest env L k _), ih (k + 1),
        List.range_succ_eq_map, List.map_cons, List.map_map]
      simp only [List.append_nil, Nat.add_zero, List.cons.injEq, true_and]
      apply List.map_congr_left
      intro i _
      simp only [Function.comp, Nat.succ_eq_add_one]
      rw [show k + 1 + i = k + (i + 1) by omega]

theorem main_trace (env : Env) (fuel : Nat) :
    (main env fuel).1 =
      (startup env).1 ++
        ((mainLoop env (startup env).2 fuel 0 (startup env).2.cam).1 ++
          (if (mainLoop env (startup env).2 fuel 0 (startup env).2.cam).2
            then shutdown (startup env).2 else [])) := by
  unfold main
  simp only []
  split <;> simp

theorem framesOf_main (env : Env) (fuel : Nat) :
    framesOf (main env fuel).1 =
      (List.range (loopIterations env fuel 0)).map
        (fun i => (frame env (startup env).2 i (camAt env (startup env).2.cam i)).1) := by
  rw [main_trace, framesOf_append_of_noTest _ _ (startup_noTest env)]
  have h := framesOf_mainLoop env (startup env).2 (shutdown (startup env).2)
    (shutdown_noTest _) (startup env).2.cam fuel 0
  simpa [camAt] using h

theorem twoPass_frame (env : Env) (L : Locals) (k : Nat) (cam : Camera3D) :
    TwoPassFrame env L.shadowMap L.lightCam (camAfterUpdate env k cam) L.cube
      (frame env L k cam).1 := by
  refine ⟨(frame env L k cam).1.take 10, ((frame env L k cam).1.drop 15).take 10,
    (frame env L k cam).1.drop 30, rfl, ?_, rfl, ?_, rfl, rfl⟩
  · intro c hc
    have hall : ((frame env L k cam).1.take 10 ++ ((frame env L k cam).1.drop 15).take 10 ++
        (frame env L k cam).1.drop 30).all (fun c => !isDraw c) = true := rfl
    simpa using List.all_eq_true.mp hall c hc
  · exact ⟨((frame env L k cam).1.drop 15).take 1, ((frame env L k cam).1.drop 17).take 4,
      ((frame env L k cam).1.drop 22).take 3, rfl⟩

theorem lightVP_frame (env : Env) (L : Locals) (k : Nat) (cam : Camera3D) :
    LightVPFrame env L.shadowShader L.lightVPLoc L.shadowMap L.lightCam
      (camAfterUpdate env k cam) L.cube (frame env L k cam).1 := by
  refine ⟨env.rlGetMatrixModelview k, env.rlGetMatrixProjection k,
    (frame env L k cam).1.take 8, ((frame env L k cam).1.drop 17).take 1,
    ((frame env L k cam).1.drop 19).take 5, (frame env L k cam).1.drop 30,
    rfl, rfl, rfl, ?_, rfl, rfl, rfl⟩
  intro c hc
  have hall : ((frame env L k cam).1.take 8 ++ ((frame env L k cam).1.drop 17).take 1 ++
      ((frame env L k cam).1.drop 19).take 5 ++ (frame env L k cam).1.drop 30).all
      (fun c => !isDraw c) = true := rfl
  simpa using List.all_eq_true.mp hall c hc

theorem framesOf_main_length (env : Env) (fuel : Nat) :
    (framesOf (main env fuel).1).length = loopIterations env fuel 0 := by
  rw [framesOf_main, List.length_map, List.length_range]

theorem framesOf_main_get (env : Env) (fuel i : Nat)
    (h : i < (framesOf (main env fuel).1).length) :
    (framesOf (main env fuel).1).get ⟨i, h⟩ =
      (frame env (startup env).2 i (camAt env (startup env).2.cam i)).1 := by
  have h2 : ∀ (l : List (List Call)) (hl : framesOf (main env fuel).1 = l) (hi : i < l.length),
      (framesOf (main env fuel).1).get ⟨i, h⟩ = l.get ⟨i, hi⟩ := by
    intro l hl hi
    subst hl
    rfl
  rw [h2 _ (framesOf_main env fuel) (by rw [← framesOf_main]; exact h)]
  simp

/-! ## The claims -/

/-- C1: in every frame of the main loop the scene is rendered exactly twice.
The frames of a run of `main` are as many as the loop iterations run, and in
each one (frame `i`, whose camera after `UpdateCamera` is `camAt .. (i + 1)`)
there are exactly two `DrawScene(cube)`: the first inside
`BeginDrawing` / `BeginTextureMode(shadowMap)` / `BeginMode3D(lightCam)`, the
second after `EndTextureMode` and `rlEnableTexture(shadowMap.depth.id)`, inside
`BeginDrawing` / `BeginMode3D(cam)`, and every `Begin*` is closed by its
matching `End*` in nested order. `shadowMap` is the target loaded at start-up
and `lightCam` the orthographic light camera. -/
theorem C1_scene_rendered_twice_per_frame (env : Env) (fuel : Nat) :
    (framesOf (main env fuel).1).length = loopIterations env fuel 0 ∧
    (startup env).2.shadowMap =
      (LoadShadowMapRenderTexture env shadowMapResolution shadowMapResolution).2 ∧
    (startup env).2.lightCam.projection = CameraProjection.CAMERA_ORTHOGRAPHIC ∧
    ∀ (i : Nat) (h : i < (framesOf (main env fuel).1).length),
      TwoPassFrame env (startup env).2.shadowMap (startup env).2.lightCam
        (camAt env (startup env).2.cam (i + 1)) (startup env).2.cube
        ((framesOf (main env fuel).1).get ⟨i, h⟩) := by
  refine ⟨framesOf_main_length env fuel, rfl, rfl, ?_⟩
  intro i h
  rw [framesOf_main_get]
  exact twoPass_frame env (startup env).2 i (camAt env (startup env).2.cam i)

/-- C6: in every frame the matrix sent to the `lightVP` uniform is
`MatrixMultiply(lightView, lightProj)` of the matrices read in that frame while
`BeginMode3D(lightCam)` was active inside `BeginTextureMode(shadowMap)`; it is
sent after the light pass has ended and before the camera pass draws the
scene. -/
theorem C6_lightVP_is_product_of_light_matrices (env : Env) (fuel : Nat) :
    (framesOf (main env fuel).1).length = loopIterations env fuel 0 ∧
    (startup env).2.lightVPLoc =
      env.GetShaderLocation (startup env).2.shadowShader "lightVP" ∧
    ∀ (i : Nat) (h : i < (framesOf (main env fuel).1).length),
      LightVPFrame env (startup env).2.shadowShader (startup env).2.lightVPLoc
        (startup env).2.shadowMap (startup env).2.lightCam
        (camAt env (startup env).2.cam (i + 1)) (startup env).2.cube
        ((framesOf (main env fuel).1).get ⟨i, h⟩) := by
  refine ⟨framesOf_main_length env fuel, rfl, ?_⟩
  intro i h
  rw [framesOf_main_get]
  exact lightVP_frame env (startup env).2 i (camAt env (startup env).2.cam i)

/-- The failure path for every environment: when `rlLoadFramebuffer` returns
0, the calls of `LoadShadowMapRenderTexture` are `rlLoadFramebuffer` followed
by what `TRACELOG(LOG_WARNING, ...)` expands to, so a `LOG_WARNING` message is
emitted once when `TRACELOG` is a call of `TraceLog` and never when it is what
rlgl.h defines; none of `rlEnableFramebuffer`, `rlLoadTextureDepth`,
`rlFramebufferAttach`, `rlFramebufferComplete`, `rlDisableFramebuffer` is called;
the target has `id = 0`, `depth` all zero and `texture.width = width`,
`texture.height = height`; and `main` runs its frame loop as usual, handing that
target to `BeginTextureMode` in every frame. -/
theorem framebuffer_failure_path (env : Env) (width height : Int) (fuel : Nat)
    (h : env.rlLoadFramebuffer = 0) :
    (LoadShadowMapRenderTexture env width height).1 =
      Call.rlLoadFramebuffer 0 ::
        TRACELOG env.tracelogExpansion TraceLogLevel.LOG_WARNING
          "FBO: Framebuffer object can not be created" [] ∧
    ((LoadShadowMapRenderTexture env width height).1.filter
        (fun c => c.name = "TraceLog")
      = if env.tracelogExpansion = TracelogExpansion.traceLogCall then
          [Call.TraceLog TraceLogLevel.LOG_WARNING
            "FBO: Framebuffer object can not be created" []]
        else []) ∧
    (∀ c ∈ (LoadShadowMapRenderTexture env width height).1,
      c.name ∉ ["rlEnableFramebuffer", "rlLoadTextureDepth", "rlFramebufferAttach",
        "rlFramebufferComplete", "rlDisableFramebuffer"]) ∧
    (LoadShadowMapRenderTexture env width height).2.id = 0 ∧
    (LoadShadowMapRenderTexture env width height).2.depth.id = 0 ∧
    (LoadShadowMapRenderTexture env width height).2.depth.width = 0 ∧
    (LoadShadowMapRenderTexture env width height).2.depth.height = 0 ∧
    (LoadShadowMapRenderTexture env width height).2.texture.width = width ∧
    (LoadShadowMapRenderTexture env width height).2.texture.height = height ∧
    (framesOf (main env fuel).1).length = loopIterations env fuel 0 ∧
    ∀ f ∈ framesOf (main env fuel).1,
      Call.BeginTextureMode
        (LoadShadowMapRenderTexture env shadowMapResolution shadowMapResolution).2 ∈ f ∧
      (LoadShadowMapRenderTexture env shadowMapResolution shadowMapResolution).2.id = 0 := by
  rw [load_fail env width height h]
  refine ⟨rfl, ?_, ?_, rfl, rfl, rfl, rfl, rfl, rfl, framesOf_main_length env fuel, ?_⟩
  · cases env.tracelogExpansion <;> rfl
  · intro c hc
    cases hexp : env.tracelogExpansion <;> rw [hexp] at hc <;>
      simp only [TRACELOG, List.mem_cons, List.mem_singleton, List.not_mem_nil, or_false] at hc
    · subst hc
      decide
    · rcases hc with hc | hc <;> subst hc <;> decide
  intro f hf
  rw [framesOf_main, List.mem_map] at hf
  obtain ⟨i, _, rfl⟩ := hf
  refine ⟨?_, by rw [load_fail env _ _ h]⟩
  have hm : Call.BeginTextureMode (startup env).2.shadowMap ∈
      (frame env (startup env).2 i (camAt env (startup env).2.cam i)).1 := by
    simp [frame]
  exact hm

/-- C3 (evaluation at the run of one frame in which `rlLoadFramebuffer`
returns 0 and `TRACELOG` is what rlgl.h defines): the only call
`LoadShadowMapRenderTexture(1024, 1024)` makes is `rlLoadFramebuffer`; the
`TRACELOG(LOG_WARNING, ...)` written on the failure path expands to nothing, so
no `LOG_WARNING` message is emitted, neither by the function nor anywhere in the
run, where the claim asks for exactly one. The rest is as claimed: the target
has `id = 0`, zero `depth` and `texture` 1024 by 1024, and `main` runs its one
frame with it and returns 0. With `TRACELOG` defined as a call of `TraceLog`
the same run emits the one message. -/
theorem C3_no_warning_emitted_on_framebuffer_failure :
    (noFramebufferEnv 1).rlLoadFramebuffer = 0 ∧
    (noFramebufferEnv 1).tracelogExpansion = TracelogExpansion.nothing ∧
    (LoadShadowMapRenderTexture (noFramebufferEnv 1) 1024 1024).1 =
      [Call.rlLoadFramebuffer 0] ∧
    (LoadShadowMapRenderTexture (noFramebufferEnv 1) 1024 1024).2 =
      ⟨0, ⟨0, 1024, 1024, 0, 0⟩, Texture.zero⟩ ∧
    callCount "TraceLog" (main (noFramebufferEnv 1) 2).1 = 0 ∧
    (framesOf (main (noFramebufferEnv 1) 2).1).length = 1 ∧
    (main (noFramebufferEnv 1) 2).2 = some 0 ∧
    (LoadShadowMapRenderTexture (loggingNoFramebufferEnv 1) 1024 1024).1 =
      [Call.rlLoadFramebuffer 0,
        Call.TraceLog TraceLogLevel.LOG_WARNING
          "FBO: Framebuffer object can not be created" []] :=
  ⟨rfl, rfl, rfl, rfl, rfl, rfl, rfl, rfl⟩

/-- C5 (evaluation at a run with one frame in which the user does not move the
camera): the only value sent to the `frustumWidth` uniform is `cam.fovy / 2`
of the perspective camera, 22.5, while the half-width of the orthographic
frustum the shadow map is rendered with is `lightCam.fovy / 2`, 10. -/
theorem C5_frustumWidth_taken_from_view_camera :
    (startup (demoEnv 1)).2.frustumWidthLoc =
      (demoEnv 1).GetShaderLocation (startup (demoEnv 1)).2.shadowShader "frustumWidth" ∧
    (framesOf (main (demoEnv 1) 2).1).length = 1 ∧
    uniformsSent (startup (demoEnv 1)).2.frustumWidthLoc (main (demoEnv 1) 2).1 =
      [UniformValue.float (45 / 2)] ∧
    (startup (demoEnv 1)).2.cam.fovy / 2 = 45 / 2 ∧
    (startup (demoEnv 1)).2.cam.projection = CameraProjection.CAMERA_PERSPECTIVE ∧
    (startup (demoEnv 1)).2.lightCam.projection = CameraProjection.CAMERA_ORTHOGRAPHIC ∧
    (startup (demoEnv 1)).2.lightCam.fovy / 2 = 10 ∧
    UniformValue.float (45 / 2) ≠ UniformValue.float ((startup (demoEnv 1)).2.lightCam.fovy / 2) := by
  refine ⟨rfl, by rw [framesOf_main_length]; rfl, rfl, rfl, rfl, rfl, ?_, ?_⟩
  · show (20 : ℚ) / 2 = 10
    norm_num
  · show UniformValue.float (45 / 2) ≠ UniformValue.float ((20 : ℚ) / 2)
    intro he
    injection he with he
    norm_num at he

/-! ## Resources -/

theorem callCount_append (fn : String) (a b : List Call) :
    callCount fn (a ++ b) = callCount fn a + callCount fn b := by
  simp [callCount]

theorem callCount_eq_zero (fn : String) (l : List Call)
    (hfn : fn ∈ createNames ++ releaseNames) (h : ∀ c ∈ l, isResourceCall c = false) :
    callCount fn l = 0 := by
  unfold callCount
  rw [List.count_eq_zero]
  intro hmem
  obtain ⟨c, hc, hn⟩ := List.mem_map.mp hmem
  have := h c hc
  simp only [isResourceCall, decide_eq_false_iff_not] at this
  exact this (hn ▸ hfn)

theorem noResource_of_all {l : List Call} (h : l.all (fun c => !isResourceCall c) = true) :
    ∀ c ∈ l, isResourceCall c = false := by
  intro c hc
  simpa using List.all_eq_true.mp h c hc

theorem frame_noResource (env : Env) (L : Locals) (k : Nat) (cam : Camera3D) :
    ∀ c ∈ (frame env L k cam).1, isResourceCall c = false :=
  noResource_of_all rfl

theorem mainLoop_noResource (env : Env) (L : Locals) (fuel k : Nat) (cam : Camera3D) :
    ∀ c ∈ (mainLoop env L fuel k cam).1, isResourceCall c = false := by
  induction fuel generalizing k cam with
  | zero => simp [mainLoop_zero]
  | succ n ih =>
    cases hw : env.WindowShouldClose k with
    | true =>
      rw [mainLoop_close env L n k cam hw]
      exact noResource_of_all rfl
    | false =>
      rw [mainLoop_step env L n k cam hw]
      intro c hc
      simp only [List.mem_cons, List.mem_append] at hc
      rcases hc with hc | hc | hc
      · subst hc
        rfl
      · exact frame_noResource env L k cam c hc
      · exact ih _ _ c hc

theorem mainLoop_finished_split (env : Env) (L : Locals) (fuel k : Nat) (cam : Camera3D)
    (h : (mainLoop env L fuel k cam).2 = true) :
    ∃ body, (mainLoop env L fuel k cam).1 = body ++ [Call.WindowShouldClose true] := by
  induction fuel generalizing k cam with
  | zero => simp [mainLoop_zero] at h
  | succ n ih =>
    cases hw : env.WindowShouldClose k with
    | true =>
      rw [mainLoop_close env L n k cam hw]
      exact ⟨[], rfl⟩
    | false =>
      rw [mainLoop_step env L n k cam hw] at h ⊢
      obtain ⟨body, hb⟩ := ih _ _ h
      refine ⟨Call.WindowShouldClose false :: ((frame env L k cam).1 ++ body), ?_⟩
      simp only [hb, List.cons_append, List.append_assoc]

theorem mainLoop_finishes (env : Env) (L : Locals) (n : Nat) :
    ∀ (fuel k : Nat) (cam : Camera3D),
      (∀ i, i < n → env.WindowShouldClose (k + i) = false) →
      env.WindowShouldClose (k + n) = true → n < fuel →
      (mainLoop env L fuel k cam).2 = true ∧ loopIterations env fuel k = n := by
  induction n with
  | zero =>
    intro fuel k cam _ hclose hfuel
    obtain ⟨m, rfl⟩ : ∃ m, fuel = m + 1 := ⟨fuel - 1, by omega⟩
    have hc : env.WindowShouldClose k = true := by simpa using hclose
    rw [mainLoop_close env L m k cam hc]
    refine ⟨rfl, ?_⟩
    rw [loopIterations, if_pos hc]
  | succ n ih =>
    intro fuel k cam hrun hclose hfuel
    obtain ⟨m, rfl⟩ : ∃ m, fuel = m + 1 := ⟨fuel - 1, by omega⟩
    have h0 : env.WindowShouldClose k = false := by simpa using hrun 0 (by omega)
    rw [mainLoop_step env L m k cam h0]
    have := ih m (k + 1) (camAfterUpdate env k cam)
      (fun i hi => by
        have := hrun (i + 1) (by omega)
        rwa [show k + (i + 1) = k + 1 + i by omega] at this)
      (by rwa [show k + (n + 1) = k + 1 + n by omega] at hclose) (by omega)
    refine ⟨this.1, ?_⟩
    simp only [loopIterations, h0, Bool.false_eq_true, if_false, this.2]

theorem startup_split (env : Env) :
    (startup env).1 =
      (startup env).1.take 18 ++
        ((LoadShadowMapRenderTexture env shadowMapResolution shadowMapResolution).1 ++
          [Call.HideCursor]) := rfl

theorem startup_head_names (env : Env) :
    ((startup env).1.take 18).map Call.name =
      ["SetConfigFlags", "InitWindow", "SetTargetFPS", "LoadShader", "GetShaderLocation",
        "GetShaderLocation", "GetShaderLocation", "SetShaderValue", "SetShaderValue",
        "GetShaderLocation", "SetShaderValue", "GetShaderLocation", "GetShaderLocation",
        "GetShaderLocation", "SetShaderValue", "GetShaderLocation", "GenMeshCube",
        "LoadModelFromMesh"] := rfl

theorem load_names (env : Env) (width height : Int) :
    (LoadShadowMapRenderTexture env width height).1.map Call.name =
      if 0 < env.rlLoadFramebuffer then
        ["rlLoadFramebuffer", "rlEnableFramebuffer", "rlLoadTextureDepth", "rlFramebufferAttach",
          "rlFramebufferComplete"]
        ++ (if env.rlFramebufferComplete env.rlLoadFramebuffer then
              (if env.tracelogExpansion = TracelogExpansion.traceLogCall then ["TraceLog"]
               else [])
            else [])
        ++ ["rlDisableFramebuffer"]
      else "rlLoadFramebuffer" ::
        (if env.tracelogExpansion = TracelogExpansion.traceLogCall then ["TraceLog"]
         else []) := by
  rcases Nat.eq_zero_or_pos env.rlLoadFramebuffer with h | h
  · rw [load_fail env width height h, if_neg (by omega)]
    cases env.tracelogExpansion <;> rfl
  · rw [load_ok env width height h, if_pos h]
    cases env.tracelogExpansion <;>
      cases env.rlFramebufferComplete env.rlLoadFramebuffer <;> rfl

theorem startup_names (env : Env) :
    (startup env).1.map Call.name =
      ["SetConfigFlags", "InitWindow", "SetTargetFPS", "LoadShader", "GetShaderLocation",
        "GetShaderLocation", "GetShaderLocation", "SetShaderValue", "SetShaderValue",
        "GetShaderLocation", "SetShaderValue", "GetShaderLocation", "GetShaderLocation",
        "GetShaderLocation", "SetShaderValue", "GetShaderLocation", "GenMeshCube",
        "LoadModelFromMesh"] ++
      ((if 0 < env.rlLoadFramebuffer then
        ["rlLoadFramebuffer", "rlEnableFramebuffer", "rlLoadTextureDepth", "rlFramebufferAttach",
          "rlFramebufferComplete"]
        ++ (if env.rlFramebufferComplete env.rlLoadFramebuffer then
              (if env.tracelogExpansion = TracelogExpansion.traceLogCall then ["TraceLog"]
               else [])
            else [])
        ++ ["rlDisableFramebuffer"]
      else "rlLoadFramebuffer" ::
        (if env.tracelogExpansion = TracelogExpansion.traceLogCall then ["TraceLog"]
         else [])) ++ ["HideCursor"]) := by
  rw [startup_split, List.map_append, List.map_append, startup_head_names, load_names]
  rfl

theorem shutdown_names (L : Locals) :
    (shutdown L).map Call.name =
      if 0 < L.shadowMap.id then
        ["UnloadShader", "UnloadModel", "rlUnloadFramebuffer", "CloseWindow"]
      else ["UnloadShader", "UnloadModel", "CloseWindow"] := by
  unfold shutdown UnloadShadowMapRenderTexture
  by_cases h : 0 < L.shadowMap.id
  · simp only [gt_iff_lt, h, if_true]
    rfl
  · simp only [gt_iff_lt, h, if_false]
    rfl

theorem shadowMap_id (env : Env) : (startup env).2.shadowMap.id = env.rlLoadFramebuffer := by
  show (LoadShadowMapRenderTexture env shadowMapResolution shadowMapResolution).2.id = _
  rcases Nat.eq_zero_or_pos env.rlLoadFramebuffer with h | h
  · rw [load_fail env _ _ h, h]
  · rw [load_ok env _ _ h]

theorem names_not_release (l : List Call) (names : List String)
    (hn : l.map Call.name = names)
    (hall : names.all (fun fn => !decide (fn ∈ releaseNames)) = true) :
    ∀ c ∈ l, c.name ∉ releaseNames := by
  intro c hc
  have hmem : c.name ∈ names := hn ▸ List.mem_map_of_mem _ hc
  simpa using List.all_eq_true.mp hall _ hmem

theorem names_release (l : List Call) (names : List String)
    (hn : l.map Call.name = names)
    (hall : names.all (fun fn => decide (fn ∈ releaseNames)) = true) :
    ∀ c ∈ l, c.name ∈ releaseNames := by
  intro c hc
  have hmem : c.name ∈ names := hn ▸ List.mem_map_of_mem _ hc
  simpa using List.all_eq_true.mp hall _ hmem

theorem startup_noRelease (env : Env) : ∀ c ∈ (startup env).1, c.name ∉ releaseNames := by
  apply names_not_release _ _ (startup_names env)
  split_ifs <;> decide

theorem shutdown_release (L : Locals) : ∀ c ∈ shutdown L, c.name ∈ releaseNames := by
  apply names_release _ _ (shutdown_names L)
  split_ifs <;> decide

theorem main_finished (env : Env) (fuel : Nat)
    (h : (mainLoop env (startup env).2 fuel 0 (startup env).2.cam).2 = true) :
    main env fuel =
      ((startup env).1 ++ (mainLoop env (startup env).2 fuel 0 (startup env).2.cam).1 ++
        shutdown (startup env).2, some 0) := by
  unfold main
  simp only [h, if_true]

theorem main_count (env : Env) (fuel : Nat) (fn : String)
    (h : (mainLoop env (startup env).2 fuel 0 (startup env).2.cam).2 = true)
    (hfn : fn ∈ createNames ++ releaseNames) :
    callCount fn (main env fuel).1 =
      ((startup env).1.map Call.name).count fn +
        ((shutdown (startup env).2).map Call.name).count fn := by
  rw [main_finished env fuel h]
  simp only [callCount_append,
    callCount_eq_zero fn _ hfn (mainLoop_noResource env (startup env).2 fuel 0 _), Nat.add_zero]
  rfl

/-- C2: in a run in which `WindowShouldClose` answers false `n` times and then
true, `main` returns 0 (given fuel for `n + 1` loop tests) after exactly `n`
frames, and its trace is `body`, the closing `WindowShouldClose`, and the
shutdown calls, where no release call occurs in `body` and the shutdown calls
are release calls only. `InitWindow` / `CloseWindow`, `LoadShader` /
`UnloadShader`, `LoadModelFromMesh` / `UnloadModel` are each called exactly
once, on the same shader and model; `rlLoadFramebuffer` is called once, and
when it gave an id greater than 0 `rlLoadTextureDepth` and
`rlUnloadFramebuffer(id)` are each called exactly once, while when it gave 0
neither is called. `UnloadShadowMapRenderTexture` calls
`rlUnloadFramebuffer(target.id)` when `target.id > 0` and nothing otherwise. -/
theorem C2_resources_released_exactly_once (env : Env) (n fuel : Nat)
    (hrun : ∀ k, k < n → env.WindowShouldClose k = false)
    (hclose : env.WindowShouldClose n = true) (hfuel : n < fuel) :
    (main env fuel).2 = some 0 ∧
    (framesOf (main env fuel).1).length = n ∧
    (∃ body : List Call,
      (main env fuel).1 = body ++ Call.WindowShouldClose true :: shutdown (startup env).2 ∧
      (∀ c ∈ body, c.name ∉ releaseNames) ∧
      (∀ c ∈ shutdown (startup env).2, c.name ∈ releaseNames)) ∧
    callCount "InitWindow" (main env fuel).1 = 1 ∧
    callCount "CloseWindow" (main env fuel).1 = 1 ∧
    callCount "LoadShader" (main env fuel).1 = 1 ∧
    callCount "UnloadShader" (main env fuel).1 = 1 ∧
    callCount "LoadModelFromMesh" (main env fuel).1 = 1 ∧
    callCount "UnloadModel" (main env fuel).1 = 1 ∧
    callCount "rlLoadFramebuffer" (main env fuel).1 = 1 ∧
    (0 < env.rlLoadFramebuffer →
      callCount "rlLoadTextureDepth" (main env fuel).1 = 1 ∧
      callCount "rlUnloadFramebuffer" (main env fuel).1 = 1 ∧
      Call.rlLoadFramebuffer env.rlLoadFramebuffer ∈ (main env fuel).1 ∧
      Call.rlUnloadFramebuffer env.rlLoadFramebuffer ∈ (main env fuel).1) ∧
    (env.rlLoadFramebuffer = 0 →
      callCount "rlLoadTextureDepth" (main env fuel).1 = 0 ∧
      callCount "rlUnloadFramebuffer" (main env fuel).1 = 0) ∧
    (∃ (vs fs : String) (loaded unloaded : Shader),
      Call.LoadShader vs fs loaded ∈ (main env fuel).1 ∧
      Call.UnloadShader unloaded ∈ (main env fuel).1 ∧ unloaded.id = loaded.id) ∧
    (∃ (mesh : Mesh) (loaded unloaded : Model),
      Call.LoadModelFromMesh mesh loaded ∈ (main env fuel).1 ∧
      Call.UnloadModel unloaded ∈ (main env fuel).1 ∧ unloaded.meshes = loaded.meshes) ∧
    (∀ target : RenderTexture2D, 0 < target.id →
      UnloadShadowMapRenderTexture target = [Call.rlUnloadFramebuffer target.id]) ∧
    (∀ target : RenderTexture2D, target.id = 0 → UnloadShadowMapRenderTexture target = []) := by
  obtain ⟨hfin, hit⟩ := mainLoop_finishes env (startup env).2 n fuel 0 (startup env).2.cam
    (fun i hi => by simpa using hrun i hi) (by simpa using hclose) hfuel
  obtain ⟨lb, hlb⟩ := mainLoop_finished_split env (startup env).2 fuel 0 _ hfin
  have hcnt := fun fn hfn => main_count env fuel fn hfin hfn
  have hmain := main_finished env fuel hfin
  have hstart : ∀ c ∈ (startup env).1, c ∈ (main env fuel).1 := by
    intro c hc
    rw [hmain]
    exact List.mem_append_left _ (List.mem_append_left _ hc)
  have hshut : ∀ c ∈ shutdown (startup env).2, c ∈ (main env fuel).1 := by
    intro c hc
    rw [hmain]
    exact List.mem_append_right _ hc
  refine ⟨by rw [hmain], by rw [framesOf_main_length, hit], ⟨(startup env).1 ++ lb, ?_, ?_,
    shutdown_release _⟩, ?_, ?_, ?_, ?_, ?_, ?_, ?_, ?_, ?_, ?_, ?_, ?_, ?_⟩
  · rw [hmain, hlb]
    simp only [List.append_assoc, List.cons_append, List.nil_append]
  · intro c hc
    rcases List.mem_append.mp hc with hc | hc
    · exact startup_noRelease env c hc
    · have hr := mainLoop_noResource env (startup env).2 fuel 0 _ c
        (hlb ▸ List.mem_append_left _ hc)
      simp only [isResourceCall, decide_eq_false_iff_not, List.mem_append, not_or] at hr
      exact hr.2
  · rw [hcnt _ (by decide), startup_names, shutdown_names]
    split_ifs <;> decide
  · rw [hcnt _ (by decide), startup_names, shutdown_names]
    split_ifs <;> decide
  · rw [hcnt _ (by decide), startup_names, shutdown_names]
    split_ifs <;> decide
  · rw [hcnt _ (by decide), startup_names, shutdown_names]
    split_ifs <;> decide
  · rw [hcnt _ (by decide), startup_names, shutdown_names]
    split_ifs <;> decide
  · rw [hcnt _ (by decide), startup_names, shutdown_names]
    split_ifs <;> decide
  · rw [hcnt _ (by decide), startup_names, shutdown_names]
    split_ifs <;> decide
  · intro hpos
    refine ⟨?_, ?_, hstart _ ?_, hshut _ ?_⟩
    · rw [hcnt _ (by decide), startup_names, shutdown_names, shadowMap_id, if_pos hpos,
        if_pos hpos]
      split_ifs <;> decide
    · rw [hcnt _ (by decide), startup_names, shutdown_names, shadowMap_id, if_pos hpos,
        if_pos hpos]
      split_ifs <;> decide
    · rw [startup_split, load_ok env _ _ hpos]
      simp
    · unfold shutdown UnloadShadowMapRenderTexture
      simp [shadowMap_id, hpos]
  · intro hzero
    have hnot : ¬ 0 < env.rlLoadFramebuffer := by omega
    refine ⟨?_, ?_⟩
    · rw [hcnt _ (by decide), startup_names, shutdown_names, shadowMap_id, if_neg hnot,
        if_neg hnot]
      split_ifs <;> decide
    · rw [hcnt _ (by decide), startup_names, shutdown_names, shadowMap_id, if_neg hnot,
        if_neg hnot]
      split_ifs <;> decide
  · refine ⟨"resources/shaders/shadowMap.vert", "resources/shaders/shadowMap.frag",
      env.LoadShader "resources/shaders/shadowMap.vert" "resources/shaders/shadowMap.frag",
      (startup env).2.shadowShader, hstart _ ?_, hshut _ ?_, rfl⟩
    · rw [startup_split]
      exact List.mem_append_left _ (by simp [startup])
    · simp [shutdown]
  · refine ⟨env.GenMeshCube 1 1 1, env.LoadModelFromMesh (env.GenMeshCube 1 1 1),
      (startup env).2.cube, hstart _ ?_, hshut _ ?_, rfl⟩
    · rw [startup_split]
      exact List.mem_append_left _ (by simp [startup])
    · simp [shutdown]
  · intro target ht
    simp [UnloadShadowMapRenderTexture, ht]
  · intro target ht
    simp [UnloadShadowMapRenderTexture, ht]

/-- In every frame the value sent to the `frustumWidth` location is half the
`fovy` of the view camera `cam` as `UpdateCamera` left it in that frame. -/
theorem frustumWidth_value_every_frame (env : Env) (fuel : Nat) :
    ∀ (i : Nat) (h : i < (framesOf (main env fuel).1).length),
      Call.rlSetUniform (startup env).2.frustumWidthLoc
        (UniformValue.float ((camAt env (startup env).2.cam (i + 1)).fovy / 2))
        ShaderUniformDataType.SHADER_UNIFORM_FLOAT 1
        ∈ (framesOf (main env fuel).1).get ⟨i, h⟩ := by
  intro i h
  rw [framesOf_main_get]
  have hm : Call.rlSetUniform (startup env).2.frustumWidthLoc
      (UniformValue.float
        ((camAfterUpdate env i (camAt env (startup env).2.cam i)).fovy / 2))
      ShaderUniformDataType.SHADER_UNIFORM_FLOAT 1 ∈
      (frame env (startup env).2 i (camAt env (startup env).2.cam i)).1 := by
    simp [frame]
  exact hm

/-! ## The claims at concrete runs -/

/-- C1 at the run of two frames: both frames render the scene twice. -/
theorem C1_witness :
    (framesOf (main (demoEnv 2) 3).1).length = 2 ∧
    ∀ (i : Nat) (h : i < (framesOf (main (demoEnv 2) 3).1).length),
      TwoPassFrame (demoEnv 2) (startup (demoEnv 2)).2.shadowMap
        (startup (demoEnv 2)).2.lightCam
        (camAt (demoEnv 2) (startup (demoEnv 2)).2.cam (i + 1)) (startup (demoEnv 2)).2.cube
        ((framesOf (main (demoEnv 2) 3).1).get ⟨i, h⟩) :=
  ⟨(C1_scene_rendered_twice_per_frame (demoEnv 2) 3).1.trans rfl,
    (C1_scene_rendered_twice_per_frame (demoEnv 2) 3).2.2.2⟩

/-- C2 at the run of two frames, with fuel for the three loop tests. -/
theorem C2_witness :
    (∀ k, k < 2 → (demoEnv 2).WindowShouldClose k = false) ∧
    (demoEnv 2).WindowShouldClose 2 = true ∧
    (main (demoEnv 2) 3).2 = some 0 ∧
    (framesOf (main (demoEnv 2) 3).1).length = 2 ∧
    callCount "InitWindow" (main (demoEnv 2) 3).1 = 1 ∧
    callCount "CloseWindow" (main (demoEnv 2) 3).1 = 1 :=
  have hrun : ∀ k, k < 2 → (demoEnv 2).WindowShouldClose k = false := by
    intro k hk
    show decide (2 ≤ k) = false
    exact decide_eq_false (by omega)
  have hclose : (demoEnv 2).WindowShouldClose 2 = true := rfl
  have hc := C2_resources_released_exactly_once (demoEnv 2) 2 3 hrun hclose (by decide)
  ⟨hrun, hclose, hc.1, hc.2.1, hc.2.2.2.1, hc.2.2.2.2.1⟩

/-- C6 at the run of two frames: both frames send the product of the light
matrices read in that frame. -/
theorem C6_witness :
    (framesOf (main (demoEnv 2) 3).1).length = 2 ∧
    ∀ (i : Nat) (h : i < (framesOf (main (demoEnv 2) 3).1).length),
      LightVPFrame (demoEnv 2) (startup (demoEnv 2)).2.shadowShader
        (startup (demoEnv 2)).2.lightVPLoc (startup (demoEnv 2)).2.shadowMap
        (startup (demoEnv 2)).2.lightCam
        (camAt (demoEnv 2) (startup (demoEnv 2)).2.cam (i + 1)) (startup (demoEnv 2)).2.cube
        ((framesOf (main (demoEnv 2) 3).1).get ⟨i, h⟩) :=
  ⟨(C6_lightVP_is_product_of_light_matrices (demoEnv 2) 3).1.trans rfl,
    (C6_lightVP_is_product_of_light_matrices (demoEnv 2) 3).2.2⟩

end PCSS
